import Mathlib

/-!
Shallow embedding of the Spot "now playing" relay (src/server.js).

Timestamps are modelled as `Int` milliseconds (JavaScript `Date.now()`).
JavaScript objects returned as JSON responses are modelled as ordered
association lists of field name to `JVal`, so that statements about which
fields a response carries are faithful to the object literals in the source.
JavaScript truthiness on optional strings and numbers (`!x`) is modelled by
explicit helper predicates: a missing value, the empty string and the
number 0 are falsy.
-/

deriving instance DecidableEq for Except

namespace Spot

/-- JSON scalar values appearing in the service's responses. -/
inductive JVal where
  | jBool (b : Bool)
  | jStr (s : String)
  | jNum (n : Int)
deriving DecidableEq

/-- A response body: JSON object (ordered fields) or plain text. -/
inductive Body where
  | json (fields : List (String × JVal))
  | text (s : String)
deriving DecidableEq

/-- An HTTP response as the handlers build it: status code, body, and
whether `Cache-Control: no-store` was set (the `noStore` helper). -/
structure Response where
  status : Nat
  body : Body
  noStore : Bool
deriving DecidableEq

/-- Server configuration: `PUBLIC_MODE` and the optional `API_KEY`
(`none` models an unset environment variable). -/
structure Config where
  publicMode : Bool
  apiKey : Option String
deriving DecidableEq

/-- JavaScript truthiness of an optional string: unset and `""` are falsy. -/
def strTruthy : Option String → Bool
  | none => false
  | some s => s ≠ ""

/-- An inbound request as the middleware sees it: path, best-effort client
address, and the `authorization` header when present. -/
structure Request where
  path : String
  ip : String
  authHeader : Option String
deriving DecidableEq

/-- Outcome of the access-control middleware. -/
inductive AccessDecision where
  | allow
  | reject401
deriving DecidableEq

/-- `requireApiAccess` from server.js: in public mode with no API key set,
allow; else if an API key is set and the `authorization` header equals
`Bearer <key>`, allow; otherwise reject with 401. A missing header reads
as `""` (the `|| ""` default). -/
def requireApiAccess (cfg : Config) (authHeader : Option String) : AccessDecision :=
  if cfg.publicMode && !(strTruthy cfg.apiKey) then
    .allow
  else if strTruthy cfg.apiKey then
    if authHeader.getD "" = "Bearer " ++ cfg.apiKey.getD "" then .allow else .reject401
  else
    .reject401

/-- One rate-limiter window entry: request count and window reset time. -/
structure RateEntry where
  count : Nat
  resetAt : Int
deriving DecidableEq

/-- The limiter store (`limiterStore`, a `Map` keyed by `ip:path`). -/
abbrev Store := List (String × RateEntry)

def RATE_LIMIT_WINDOW_MS : Int := 60000

def RATE_LIMIT_MAX : Nat := 120

/-- `Map.set`: replace the binding of `k` if present, else append it. -/
def mapSet (store : Store) (k : String) (v : RateEntry) : Store :=
  match store with
  | [] => [(k, v)]
  | (k2, v2) :: rest => if k2 = k then (k, v) :: rest else (k2, v2) :: mapSet rest k v

/-- Outcome of the rate-limit middleware. -/
inductive RateDecision where
  | allow
  | reject429
deriving DecidableEq

/-- `rateLimit` from server.js: per `ip:path` key, start a fresh window
(count 1, reset in 60 s) when no entry exists or `now` has passed the
reset time; reject when the count has reached 120; else increment. -/
def rateLimit (store : Store) (now : Int) (ip : String) (path : String) :
    RateDecision × Store :=
  let routeKey := ip ++ ":" ++ path
  match (List.lookup routeKey store : Option RateEntry) with
  | none => (.allow, mapSet store routeKey ⟨1, now + RATE_LIMIT_WINDOW_MS⟩)
  | some existing =>
    if existing.resetAt < now then
      (.allow, mapSet store routeKey ⟨1, now + RATE_LIMIT_WINDOW_MS⟩)
    else if RATE_LIMIT_MAX ≤ existing.count then
      (.reject429, store)
    else
      (.allow, mapSet store routeKey ⟨existing.count + 1, existing.resetAt⟩)

/-- Run a sequence of requests through the rate limiter, one per timestamp,
all with the same client address and path; collect the decisions and the
final store. -/
def runTimes (store : Store) (ip : String) (path : String) : List Int → List RateDecision × Store
  | [] => ([], store)
  | t :: ts =>
    let step := rateLimit store t ip path
    let rest := runTimes step.2 ip path ts
    (step.1 :: rest.1, rest.2)

/-- Outcome of the shared `/api` middleware chain
`app.use("/api", rateLimit, requireApiAccess)`: either the request
proceeds to its route handler, or a middleware already answered. -/
inductive GateOutcome where
  | proceed (store : Store)
  | blocked (resp : Response) (store : Store)
deriving DecidableEq

/-- The `/api` middleware chain: rate limiting first (429, no-store, JSON
error on rejection), then access control (401, no-store, JSON error). -/
def apiGate (cfg : Config) (store : Store) (now : Int) (req : Request) : GateOutcome :=
  let step := rateLimit store now req.ip req.path
  match step.1 with
  | .reject429 => .blocked ⟨429, .json [("error", .jStr "Too Many Requests")], true⟩ store
  | .allow =>
    match requireApiAccess cfg req.authHeader with
    | .reject401 => .blocked ⟨401, .json [("error", .jStr "Unauthorized")], true⟩ step.2
    | .allow => .proceed step.2

/-- The `GET /api/health` route: after the middleware chain, answer
`\x7b "ok": true \x7d` with no-store. `res.json` leaves the default 200 status. -/
def handleHealth (cfg : Config) (store : Store) (now : Int) (req : Request) :
    Response × Store :=
  match apiGate cfg store now req with
  | .blocked resp store2 => (resp, store2)
  | .proceed store2 => (⟨200, .json [("ok", .jBool true)], true⟩, store2)

/-- The token cache (`tokenCache`): the module-level mutable object holding
the last access token (`null` initially) and its expiry timestamp. -/
structure TokenCache where
  accessToken : Option String
  expiresAt : Int
deriving DecidableEq

/-- The two failure modes of the token manager (`getAccessToken` throws):
a non-success HTTP status on the credential exchange, carrying that status
(`Spotify token refresh failed (<status>)`), or a success response whose
body lacks the access token or the lifetime
(`Spotify token refresh returned invalid payload`). -/
inductive UpstreamAuthError where
  | httpStatus (status : Nat)
  | invalidPayload
deriving DecidableEq

/-- JavaScript truthiness of an optional number: unset and 0 are falsy. -/
def intTruthy : Option Int → Bool
  | none => false
  | some n => n ≠ 0

/-- Body of the credential-exchange response, with the two fields
`getAccessToken` reads; `none` models an absent field. -/
structure TokenBody where
  access_token : Option String
  expires_in : Option Int
deriving DecidableEq

/-- The credential-exchange HTTP response: status code and parsed body. -/
structure ExchangeResponse where
  status : Nat
  tbody : TokenBody
deriving DecidableEq

/-- `response.ok` of the fetch API: status in the range 200–299. -/
def respOk (status : Nat) : Bool :=
  200 ≤ status && status ≤ 299

/-- Result of one `getAccessToken` call: the returned token or the thrown
error, the token cache afterwards, and whether a credential-exchange
network call was made. -/
structure TokenStep where
  result : Except UpstreamAuthError String
  cache : TokenCache
  networkCalled : Bool
deriving DecidableEq

/-- `getAccessToken` from server.js, as a pure function of the cache, the
current time, and the credential-exchange response the network would
return. Cache hit: a (truthy) cached token with `now < expiresAt - 30000`
is returned with no network call. Otherwise the exchange runs: non-success
status throws; a body whose `access_token` or `expires_in` is falsy
throws; else the token is cached with `expiresAt = now + expires_in * 1000`
and returned. -/
def getAccessToken (cache : TokenCache) (now : Int) (resp : ExchangeResponse) : TokenStep :=
  if strTruthy cache.accessToken && decide (now < cache.expiresAt - 30000) then
    ⟨.ok (cache.accessToken.getD ""), cache, false⟩
  else if !(respOk resp.status) then
    ⟨.error (.httpStatus resp.status), cache, true⟩
  else if !(strTruthy resp.tbody.access_token) || !(intTruthy resp.tbody.expires_in) then
    ⟨.error .invalidPayload, cache, true⟩
  else
    let tok := resp.tbody.access_token.getD ""
    ⟨.ok tok, ⟨some tok, now + resp.tbody.expires_in.getD 0 * 1000⟩, true⟩

/-- An artist object in the upstream payload: optional `name`. -/
structure Artist where
  name : Option String
deriving DecidableEq

/-- An artwork image object: optional `url`. -/
structure Image where
  url : Option String
deriving DecidableEq

/-- An album object: optional `name` and optional `images` array. -/
structure Album where
  name : Option String
  images : Option (List Image)
deriving DecidableEq

/-- The `external_urls` object: optional `spotify` link. -/
structure ExtUrls where
  spotify : Option String
deriving DecidableEq

/-- The upstream `item` (track) object with the fields `mapNowPlaying`
reads; `none` models an absent field. `duration_ms` is `some` exactly when
the upstream value is a finite number (`Number.isFinite`). -/
structure Item where
  name : Option String
  artists : Option (List Artist)
  album : Option Album
  external_urls : Option ExtUrls
  id : Option String
  duration_ms : Option Int
deriving DecidableEq

/-- The upstream currently-playing payload: `is_playing` as an optional
boolean (`none` when absent or non-boolean, so `=== true` and `=== false`
are both false), `progress_ms` (`some` exactly when a finite number), and
the optional `item`. -/
structure PlayingData where
  is_playing : Option Bool
  progress_ms : Option Int
  item : Option Item
deriving DecidableEq

/-- `data.is_playing === true`. -/
def jsEqTrue : Option Bool → Bool
  | some true => true
  | _ => false

/-- `data.is_playing === false`. -/
def jsEqFalse : Option Bool → Bool
  | some false => true
  | _ => false

/-- `(item.artists || []).map(a => a.name).join(", ")`: `Array.join`
renders an undefined name as the empty string. -/
def joinNames (artists : List Artist) : String :=
  String.intercalate ", " (artists.map fun a => a.name.getD "")

/-- `mapNowPlaying` from server.js: a null payload or one without an item
yields the single-field object `is_playing: false`; otherwise the ten-field
object built from the item, with `|| ""` string defaults and
`Number.isFinite ? v : 0` numeric defaults. -/
def mapNowPlaying (data : Option PlayingData) : List (String × JVal) :=
  match data with
  | none => [("is_playing", .jBool false)]
  | some d =>
    match d.item with
    | none => [("is_playing", .jBool false)]
    | some item =>
      [("is_playing", .jBool (jsEqTrue d.is_playing)),
       ("is_paused", .jBool (jsEqFalse d.is_playing)),
       ("track", .jStr (item.name.getD "")),
       ("artist", .jStr (joinNames (item.artists.getD []))),
       ("album", .jStr ((item.album.bind Album.name).getD "")),
       ("artwork_url",
        .jStr ((((item.album.bind Album.images).bind List.head?).bind Image.url).getD "")),
       ("url", .jStr ((item.external_urls.bind ExtUrls.spotify).getD "")),
       ("id", .jStr (item.id.getD "")),
       ("progress_ms", .jNum (d.progress_ms.getD 0)),
       ("duration_ms", .jNum (item.duration_ms.getD 0))]

/-- The failure modes of `fetchNowPlaying`: a token-manager failure,
propagated unchanged, or a non-success, non-204 status on the
playback-read call, carrying that status
(`Spotify currently-playing fetch failed (<status>)`). -/
inductive FetchError where
  | tokenError (e : UpstreamAuthError)
  | upstreamFetchError (status : Nat)
deriving DecidableEq

/-- The playback-read HTTP response: status code and parsed JSON body
(`none` models a null body; it is only consulted on a 2xx, non-204
status). -/
structure PlayingResponse where
  status : Nat
  pbody : Option PlayingData
deriving DecidableEq

/-- Result of one `fetchNowPlaying` call: the normalized object or the
thrown error, plus the token cache afterwards. -/
structure FetchStep where
  result : Except FetchError (List (String × JVal))
  cache : TokenCache
deriving DecidableEq

/-- `fetchNowPlaying` from server.js, as a pure function of the cache, the
time, and the two upstream responses: obtain a token (propagating any
token failure), then read the player; a 204 status is the normal
nothing-playing outcome `is_playing: false`; any other non-success status
throws; on success the payload is normalized by `mapNowPlaying`. -/
def fetchNowPlaying (cache : TokenCache) (now : Int) (tokResp : ExchangeResponse)
    (playResp : PlayingResponse) : FetchStep :=
  let step := getAccessToken cache now tokResp
  match step.result with
  | .error e => ⟨.error (.tokenError e), step.cache⟩
  | .ok _ =>
    if playResp.status = 204 then
      ⟨.ok [("is_playing", .jBool false)], step.cache⟩
    else if !(respOk playResp.status) then
      ⟨.error (.upstreamFetchError playResp.status), step.cache⟩
    else
      ⟨.ok (mapNowPlaying playResp.pbody), step.cache⟩

/-- `err.message` for the errors `fetchNowPlaying` can throw (all carry a
non-empty message, so the `|| "Upstream error"` fallback never fires). -/
def errorMessage : FetchError → String
  | .tokenError (.httpStatus s) => "Spotify token refresh failed (" ++ toString s ++ ")"
  | .tokenError .invalidPayload => "Spotify token refresh returned invalid payload"
  | .upstreamFetchError s => "Spotify currently-playing fetch failed (" ++ toString s ++ ")"

/-- The `GET /api/now-playing` route: after the middleware chain, answer
the normalized object as JSON on success, or a 502 with the error message
on any `fetchNowPlaying` failure; always no-store. -/
def handleNowPlaying (cfg : Config) (store : Store) (cache : TokenCache) (now : Int)
    (req : Request) (tokResp : ExchangeResponse) (playResp : PlayingResponse) :
    Response × Store × TokenCache :=
  match apiGate cfg store now req with
  | .blocked resp store2 => (resp, store2, cache)
  | .proceed store2 =>
    let step := fetchNowPlaying cache now tokResp playResp
    match step.result with
    | .ok obj => (⟨200, .json obj, true⟩, store2, step.cache)
    | .error e => (⟨502, .json [("error", .jStr (errorMessage e))], true⟩, store2, step.cache)

/-- The spec's `NowPlayingView`: the normalized, transport-agnostic
snapshot with nine fields. -/
structure NowPlayingView where
  is_playing : Bool
  track : String
  artist : String
  album : String
  artwork_url : String
  url : String
  id : String
  progress_ms : Int
  duration_ms : Int
deriving DecidableEq

/-- Read a string field of a JSON object the way the service's consumers
do: an absent field reads at its empty default. -/
def getStr (o : List (String × JVal)) (k : String) : String :=
  match List.lookup k o with
  | some (.jStr s) => s
  | _ => ""

/-- Read a boolean field; absent reads as false. -/
def getBool (o : List (String × JVal)) (k : String) : Bool :=
  match List.lookup k o with
  | some (.jBool b) => b
  | _ => false

/-- Read a numeric field; absent reads as zero. -/
def getNum (o : List (String × JVal)) (k : String) : Int :=
  match List.lookup k o with
  | some (.jNum n) => n
  | _ => 0

/-- The `NowPlayingView` a consumer reads off a response object, absent
fields at their zero/empty defaults. -/
def viewOf (o : List (String × JVal)) : NowPlayingView :=
  ⟨getBool o "is_playing", getStr o "track", getStr o "artist", getStr o "album",
   getStr o "artwork_url", getStr o "url", getStr o "id",
   getNum o "progress_ms", getNum o "duration_ms"⟩

/-- The all-default view: not playing, empty strings, zero numbers. -/
def defaultView : NowPlayingView :=
  ⟨false, "", "", "", "", "", "", 0, 0⟩

/-- A concrete upstream track used to exercise the normalization. -/
def sampleItem : Item :=
  ⟨some "Song", some [⟨some "Artist A"⟩, ⟨some "Artist B"⟩],
   some ⟨some "Alb", some [⟨some "img-url"⟩]⟩, some ⟨some "share-url"⟩,
   some "id1", some 200000⟩

/-- A concrete upstream payload with `sampleItem` playing. -/
def sampleData : PlayingData := ⟨some true, some 1000, some sampleItem⟩

/-! ## Helper lemmas about the rate limiter -/

theorem mapSet_lookup_self (store : Store) (k : String) (v : RateEntry) :
    List.lookup k (mapSet store k v) = some v := by
  induction store with
  | nil => simp [mapSet]
  | cons hd tl ih =>
    obtain ⟨k2, v2⟩ := hd
    by_cases h : k2 = k
    · simp [mapSet, h]
    · have hb : (k == k2) = false := beq_eq_false_iff_ne.mpr (Ne.symm h)
      simp [mapSet, h, List.lookup, hb, ih]

theorem rateLimit_fresh (store : Store) (now : Int) (ip path : String)
    (h : List.lookup (ip ++ ":" ++ path) store = none) :
    rateLimit store now ip path =
      (.allow, mapSet store (ip ++ ":" ++ path) ⟨1, now + RATE_LIMIT_WINDOW_MS⟩) := by
  simp [rateLimit, h]

theorem rateLimit_expired (store : Store) (now : Int) (ip path : String) (e : RateEntry)
    (hl : List.lookup (ip ++ ":" ++ path) store = some e) (h : e.resetAt < now) :
    rateLimit store now ip path =
      (.allow, mapSet store (ip ++ ":" ++ path) ⟨1, now + RATE_LIMIT_WINDOW_MS⟩) := by
  simp [rateLimit, hl, h]

theorem rateLimit_reject (store : Store) (now : Int) (ip path : String) (e : RateEntry)
    (hl : List.lookup (ip ++ ":" ++ path) store = some e)
    (h1 : now ≤ e.resetAt) (h2 : RATE_LIMIT_MAX ≤ e.count) :
    rateLimit store now ip path = (.reject429, store) := by
  simp [rateLimit, hl, not_lt.mpr h1, h2]

theorem rateLimit_increment (store : Store) (now : Int) (ip path : String) (e : RateEntry)
    (hl : List.lookup (ip ++ ":" ++ path) store = some e)
    (h1 : now ≤ e.resetAt) (h2 : e.count < RATE_LIMIT_MAX) :
    rateLimit store now ip path =
      (.allow, mapSet store (ip ++ ":" ++ path) ⟨e.count + 1, e.resetAt⟩) := by
  simp [rateLimit, hl, not_lt.mpr h1, Nat.not_le.mpr h2]

theorem runTimes_inWindow (ip path : String) (r : Int) (ts : List Int) :
    ∀ (store : Store) (c : Nat),
    List.lookup (ip ++ ":" ++ path) store = some ⟨c, r⟩ →
    (∀ t ∈ ts, t ≤ r) →
    c + ts.length ≤ RATE_LIMIT_MAX →
    (runTimes store ip path ts).1 = List.replicate ts.length RateDecision.allow ∧
    List.lookup (ip ++ ":" ++ path) (runTimes store ip path ts).2 =
      some ⟨c + ts.length, r⟩ := by
  induction ts with
  | nil =>
    intro store c hl _ _
    simp [runTimes, hl]
  | cons t ts ih =>
    intro store c hl hts hc
    have hcount : c < RATE_LIMIT_MAX := by
      simp only [List.length_cons] at hc
      omega
    have hstep := rateLimit_increment store t ip path ⟨c, r⟩ hl
      (hts t (List.mem_cons_self t ts)) hcount
    have hl2 := mapSet_lookup_self store (ip ++ ":" ++ path) ⟨c + 1, r⟩
    have hrec := ih (mapSet store (ip ++ ":" ++ path) ⟨c + 1, r⟩) (c + 1) hl2
      (fun x hx => hts x (List.mem_cons_of_mem t hx))
      (by simp only [List.length_cons] at hc; omega)
    have harith : c + 1 + ts.length = c + (t :: ts).length := by
      simp only [List.length_cons]
      omega
    constructor
    · simp [runTimes, hstep, hrec.1, List.replicate]
    · have := hrec.2
      rw [harith] at this
      simpa [runTimes, hstep] using this

/-! ## Claim theorems -/

/-- C1, counterexample: with gated mode on (public off, no key) a request to
the health route that passes the rate limiter is answered 401 Unauthorized,
not with the ok body; likewise when a shared secret is configured and the
request carries no credential. The health route is not exempt from access
control. -/
theorem C1_health_counterexample :
    (rateLimit [] 0 "1.2.3.4" "/health").1 = RateDecision.allow ∧
    (handleHealth ⟨false, none⟩ [] 0 ⟨"/health", "1.2.3.4", none⟩).1 =
      ⟨401, .json [("error", .jStr "Unauthorized")], true⟩ ∧
    (handleHealth ⟨true, some "secret"⟩ [] 0 ⟨"/health", "1.2.3.4", none⟩).1.status = 401 := by
  decide

/-- C1 (amended): a request to GET /api/health that passes the rate limiter
and the access-control check is answered with the ok-true body; the health
route is subject to the same access-control check as every other /api
route, so when that check rejects, the request is answered 401 with a
non-cacheable error body. -/
theorem C1_health_gate (cfg : Config) (store : Store) (now : Int) (req : Request)
    (hrate : (rateLimit store now req.ip req.path).1 = RateDecision.allow) :
    (requireApiAccess cfg req.authHeader = AccessDecision.allow →
      handleHealth cfg store now req =
        (⟨200, .json [("ok", .jBool true)], true⟩, (rateLimit store now req.ip req.path).2)) ∧
    (requireApiAccess cfg req.authHeader = AccessDecision.reject401 →
      (handleHealth cfg store now req).1 =
        ⟨401, .json [("error", .jStr "Unauthorized")], true⟩) := by
  constructor <;> intro h <;> simp [handleHealth, apiGate, hrate, h]

/-- C1 witness: in the default public configuration a health request from a
fresh client is allowed by both middlewares and answered ok-true. -/
theorem C1_health_gate_witness :
    (rateLimit [] 0 "9.9.9.9" "/health").1 = RateDecision.allow ∧
    handleHealth ⟨true, none⟩ [] 0 ⟨"/health", "9.9.9.9", none⟩ =
      (⟨200, .json [("ok", .jBool true)], true⟩, (rateLimit [] 0 "9.9.9.9" "/health").2) := by
  exact ⟨by decide,
    (C1_health_gate ⟨true, none⟩ [] 0 ⟨"/health", "9.9.9.9", none⟩ (by decide)).1 (by decide)⟩

/-- C2: a cached (non-empty) token is returned with no credential-exchange
call whenever now is strictly before the cached expiry minus the 30-second
safety margin; otherwise an exchange is performed, and on a success
response with a well-formed body the token is stored with
expiresAt = now + expires_in * 1000 and returned. -/
theorem C2_token_manager (cache : TokenCache) (now : Int) (resp : ExchangeResponse) :
    (∀ t, cache.accessToken = some t → t ≠ "" → now < cache.expiresAt - 30000 →
      getAccessToken cache now resp = ⟨.ok t, cache, false⟩) ∧
    ((strTruthy cache.accessToken = false ∨ cache.expiresAt - 30000 ≤ now) →
      (getAccessToken cache now resp).networkCalled = true ∧
      (∀ t e, respOk resp.status = true → resp.tbody.access_token = some t → t ≠ "" →
        resp.tbody.expires_in = some e → e ≠ 0 →
        getAccessToken cache now resp = ⟨.ok t, ⟨some t, now + e * 1000⟩, true⟩)) := by
  constructor
  · intro t ht hne hlt
    have hhit : (strTruthy cache.accessToken && decide (now < cache.expiresAt - 30000)) = true := by
      simp [strTruthy, ht, hne, hlt]
    unfold getAccessToken
    rw [if_pos hhit, ht]
    rfl
  · intro h
    have hmiss : (strTruthy cache.accessToken && decide (now < cache.expiresAt - 30000)) = false := by
      rcases h with h | h
      · simp [h]
      · simp [not_lt.mpr h]
    have h1 : ¬ ((strTruthy cache.accessToken && decide (now < cache.expiresAt - 30000)) = true) := by
      simp [hmiss]
    constructor
    · unfold getAccessToken
      rw [if_neg h1]
      split
      · rfl
      · split
        · rfl
        · rfl
    · intro t e hok hat hne hei hez
      have h2 : ¬ ((!respOk resp.status) = true) := by simp [hok]
      have h3 : ¬ ((!strTruthy resp.tbody.access_token || !intTruthy resp.tbody.expires_in) = true) := by
        simp [strTruthy, intTruthy, hat, hei, hne, hez]
      unfold getAccessToken
      rw [if_neg h1, if_neg h2, if_neg h3, hat, hei]
      rfl

/-- C2 witness: a concrete cache hit inside the margin returns the cached
token without a network call, and a concrete miss stores and returns the
exchanged token with the computed expiry. -/
theorem C2_token_manager_witness :
    getAccessToken ⟨some "tok", 100000⟩ 0 ⟨500, ⟨none, none⟩⟩ =
      ⟨.ok "tok", ⟨some "tok", 100000⟩, false⟩ ∧
    getAccessToken ⟨none, 0⟩ 5 ⟨200, ⟨some "t2", some 3600⟩⟩ =
      ⟨.ok "t2", ⟨some "t2", 5 + 3600 * 1000⟩, true⟩ := by
  refine ⟨(C2_token_manager ⟨some "tok", 100000⟩ 0 ⟨500, ⟨none, none⟩⟩).1 "tok" rfl
      (by decide) (by decide), ?h2⟩
  exact ((C2_token_manager ⟨none, 0⟩ 5 ⟨200, ⟨some "t2", some 3600⟩⟩).2
      (Or.inl (by decide))).2 "t2" 3600 (by decide) rfl (by decide) rfl (by decide)

/-- C3: when the token manager actually performs the exchange, a non-success
HTTP status makes it fail with the status-carrying auth error, and a
success status with a body whose access token or lifetime is missing
(falsy) makes it fail with the invalid-payload auth error; in both cases
the token cache is returned unchanged. -/
theorem C3_exchange_failure (cache : TokenCache) (now : Int) (resp : ExchangeResponse)
    (hmiss : strTruthy cache.accessToken = false ∨ cache.expiresAt - 30000 ≤ now) :
    (respOk resp.status = false →
      getAccessToken cache now resp = ⟨.error (.httpStatus resp.status), cache, true⟩) ∧
    (respOk resp.status = true →
      (strTruthy resp.tbody.access_token = false ∨ intTruthy resp.tbody.expires_in = false) →
      getAccessToken cache now resp = ⟨.error .invalidPayload, cache, true⟩) := by
  have h1 : ¬ ((strTruthy cache.accessToken && decide (now < cache.expiresAt - 30000)) = true) := by
    rcases hmiss with h | h
    · simp [h]
    · simp [not_lt.mpr h]
  constructor
  · intro hbad
    have h2 : ((!respOk resp.status) = true) := by simp [hbad]
    unfold getAccessToken
    rw [if_neg h1, if_pos h2]
  · intro hok hbody
    have h2 : ¬ ((!respOk resp.status) = true) := by simp [hok]
    have h3 : ((!strTruthy resp.tbody.access_token || !intTruthy resp.tbody.expires_in) = true) := by
      rcases hbody with h | h <;> simp [h]
    unfold getAccessToken
    rw [if_neg h1, if_neg h2, if_pos h3]

/-- C3 witness: a concrete 500 on the exchange yields the status-carrying
error and leaves the empty cache unchanged; a concrete 200 with an empty
body yields the invalid-payload error and leaves the cache unchanged. -/
theorem C3_exchange_failure_witness :
    getAccessToken ⟨none, 0⟩ 0 ⟨500, ⟨none, none⟩⟩ =
      ⟨.error (.httpStatus 500), ⟨none, 0⟩, true⟩ ∧
    getAccessToken ⟨none, 0⟩ 0 ⟨200, ⟨none, none⟩⟩ =
      ⟨.error .invalidPayload, ⟨none, 0⟩, true⟩ := by
  exact ⟨(C3_exchange_failure ⟨none, 0⟩ 0 ⟨500, ⟨none, none⟩⟩ (Or.inl (by decide))).1 (by decide),
    (C3_exchange_failure ⟨none, 0⟩ 0 ⟨200, ⟨none, none⟩⟩ (Or.inl (by decide))).2
      (by decide) (Or.inl (by decide))⟩

/-- C10: with gated mode selected (public off) and no shared secret
configured, the access-control check rejects every request, so every /api
request that passes the rate limiter is answered 401 Unauthorized,
whatever authorization header it carries. -/
theorem C10_gated_without_key (cfg : Config) (store : Store) (now : Int) (req : Request)
    (hpub : cfg.publicMode = false) (hkey : cfg.apiKey = none)
    (hrate : (rateLimit store now req.ip req.path).1 = RateDecision.allow) :
    requireApiAccess cfg req.authHeader = AccessDecision.reject401 ∧
    apiGate cfg store now req =
      .blocked ⟨401, .json [("error", .jStr "Unauthorized")], true⟩
        (rateLimit store now req.ip req.path).2 := by
  have hacc : requireApiAccess cfg req.authHeader = AccessDecision.reject401 := by
    simp [requireApiAccess, hpub, hkey, strTruthy]
  exact ⟨hacc, by simp [apiGate, hrate, hacc]⟩

/-- C10 witness: a concrete request carrying some bearer credential is
still rejected 401 in the gated-without-key configuration. -/
theorem C10_gated_without_key_witness :
    apiGate ⟨false, none⟩ [] 0 ⟨"/now-playing", "8.8.8.8", some "Bearer anything"⟩ =
      .blocked ⟨401, .json [("error", .jStr "Unauthorized")], true⟩
        (rateLimit [] 0 "8.8.8.8" "/now-playing").2 := by
  exact (C10_gated_without_key ⟨false, none⟩ [] 0
    ⟨"/now-playing", "8.8.8.8", some "Bearer anything"⟩ rfl rfl (by decide)).2

/-- C4: per (client, route) key the limiter starts a fresh window
(count 1, reset in 60 s) when no entry exists or now has passed the reset
time, rejects when the count has reached the maximum of 120, and otherwise
increments and allows; consequently from an empty store 120 in-window
requests to one key all succeed with the count tracking them, the 121st
in-window request is rejected, and a request after the window elapses
starts a fresh window again. -/
theorem C4_rate_limiter :
    (∀ (store : Store) (now : Int) (ip path : String),
      (List.lookup (ip ++ ":" ++ path) store = none →
        rateLimit store now ip path =
          (.allow, mapSet store (ip ++ ":" ++ path) ⟨1, now + RATE_LIMIT_WINDOW_MS⟩)) ∧
      (∀ e, List.lookup (ip ++ ":" ++ path) store = some e →
        (e.resetAt < now →
          rateLimit store now ip path =
            (.allow, mapSet store (ip ++ ":" ++ path) ⟨1, now + RATE_LIMIT_WINDOW_MS⟩)) ∧
        (now ≤ e.resetAt → RATE_LIMIT_MAX ≤ e.count →
          rateLimit store now ip path = (.reject429, store)) ∧
        (now ≤ e.resetAt → e.count < RATE_LIMIT_MAX →
          rateLimit store now ip path =
            (.allow, mapSet store (ip ++ ":" ++ path) ⟨e.count + 1, e.resetAt⟩)))) ∧
    (∀ (ip path : String) (t0 : Int) (ts : List Int),
      ts.length + 1 ≤ RATE_LIMIT_MAX →
      (∀ t ∈ ts, t ≤ t0 + RATE_LIMIT_WINDOW_MS) →
      (runTimes [] ip path (t0 :: ts)).1 =
        List.replicate (ts.length + 1) RateDecision.allow ∧
      List.lookup (ip ++ ":" ++ path) (runTimes [] ip path (t0 :: ts)).2 =
        some ⟨ts.length + 1, t0 + RATE_LIMIT_WINDOW_MS⟩ ∧
      (ts.length + 1 = RATE_LIMIT_MAX →
        ∀ t1, t1 ≤ t0 + RATE_LIMIT_WINDOW_MS →
          rateLimit (runTimes [] ip path (t0 :: ts)).2 t1 ip path =
            (.reject429, (runTimes [] ip path (t0 :: ts)).2)) ∧
      (∀ t2, t0 + RATE_LIMIT_WINDOW_MS < t2 →
        rateLimit (runTimes [] ip path (t0 :: ts)).2 t2 ip path =
          (.allow, mapSet (runTimes [] ip path (t0 :: ts)).2 (ip ++ ":" ++ path)
            ⟨1, t2 + RATE_LIMIT_WINDOW_MS⟩))) := by
  constructor
  · intro store now ip path
    refine ⟨fun h => rateLimit_fresh store now ip path h, fun e he => ?he⟩
    exact ⟨fun h => rateLimit_expired store now ip path e he h,
      fun h1 h2 => rateLimit_reject store now ip path e he h1 h2,
      fun h1 h2 => rateLimit_increment store now ip path e he h1 h2⟩
  · intro ip path t0 ts hN hts
    have h0 : List.lookup (ip ++ ":" ++ path) ([] : Store) = none := rfl
    have hfirst := rateLimit_fresh [] t0 ip path h0
    have hl1 := mapSet_lookup_self ([] : Store) (ip ++ ":" ++ path)
      ⟨1, t0 + RATE_LIMIT_WINDOW_MS⟩
    have hrun := runTimes_inWindow ip path (t0 + RATE_LIMIT_WINDOW_MS) ts
      (mapSet [] (ip ++ ":" ++ path) ⟨1, t0 + RATE_LIMIT_WINDOW_MS⟩) 1 hl1 hts
      (by have h := hN; simp only [RATE_LIMIT_MAX] at h ⊢; omega)
    have hdec : (runTimes [] ip path (t0 :: ts)).1 =
        List.replicate (ts.length + 1) RateDecision.allow := by
      simp [runTimes, hfirst, hrun.1, List.replicate]
    have hlook : List.lookup (ip ++ ":" ++ path) (runTimes [] ip path (t0 :: ts)).2 =
        some ⟨ts.length + 1, t0 + RATE_LIMIT_WINDOW_MS⟩ := by
      have := hrun.2
      have harith : 1 + ts.length = ts.length + 1 := by omega
      rw [harith] at this
      simpa [runTimes, hfirst] using this
    refine ⟨hdec, hlook, fun hmax t1 ht1 => ?hrej, fun t2 ht2 => ?hres⟩
    · exact rateLimit_reject _ t1 ip path ⟨ts.length + 1, t0 + RATE_LIMIT_WINDOW_MS⟩
        hlook ht1 (le_of_eq hmax.symm)
    · exact rateLimit_expired _ t2 ip path ⟨ts.length + 1, t0 + RATE_LIMIT_WINDOW_MS⟩
        hlook ht2

/-- C4 witness: three requests at times 0, 10, 20 from an empty store are
all allowed with the count reaching 3 and the window reset at 60000, and a
request at time 70000 starts a fresh window. -/
theorem C4_rate_limiter_witness :
    (runTimes [] "a" "/p" [0, 10, 20]).1 = List.replicate 3 RateDecision.allow ∧
    List.lookup ("a" ++ ":" ++ "/p") (runTimes [] "a" "/p" [0, 10, 20]).2 =
      some ⟨3, 0 + RATE_LIMIT_WINDOW_MS⟩ ∧
    rateLimit (runTimes [] "a" "/p" [0, 10, 20]).2 70000 "a" "/p" =
      (.allow, mapSet (runTimes [] "a" "/p" [0, 10, 20]).2 ("a" ++ ":" ++ "/p")
        ⟨1, 70000 + RATE_LIMIT_WINDOW_MS⟩) := by
  have h := C4_rate_limiter.2 "a" "/p" 0 [10, 20] (by decide) (by decide)
  exact ⟨h.1, h.2.1, h.2.2.2 70000 (by decide)⟩

/-- C5: in public mode with no shared secret configured every request is
allowed; when a (non-empty) secret is configured a request is allowed
exactly when its authorization header equals the string Bearer followed by
a space and the secret; and a rejection, after the rate limiter allows, is
answered 401 with a non-cacheable JSON error body. -/
theorem C5_access_control (cfg : Config) (store : Store) (now : Int) (req : Request) :
    (cfg.publicMode = true → cfg.apiKey = none →
      requireApiAccess cfg req.authHeader = AccessDecision.allow) ∧
    (∀ k, cfg.apiKey = some k → k ≠ "" →
      (requireApiAccess cfg req.authHeader = AccessDecision.allow ↔
        req.authHeader = some ("Bearer " ++ k))) ∧
    (requireApiAccess cfg req.authHeader = AccessDecision.reject401 →
      (rateLimit store now req.ip req.path).1 = RateDecision.allow →
      apiGate cfg store now req =
        .blocked ⟨401, .json [("error", .jStr "Unauthorized")], true⟩
          (rateLimit store now req.ip req.path).2) := by
  refine ⟨fun hpub hkey => ?hopen, fun k hk hkne => ?hiff, fun hrej hrate => ?hresp⟩
  · simp [requireApiAccess, hpub, hkey, strTruthy]
  · have hkeylen : ("Bearer " ++ k) ≠ "" := by
      intro hcontra
      have h0 : ("Bearer " ++ k).length = 0 := by rw [hcontra]; rfl
      rw [String.length_append] at h0
      have h7 : ("Bearer ").length = 7 := rfl
      omega
    have htr : strTruthy cfg.apiKey = true := by simp [hk, strTruthy, hkne]
    constructor
    · intro hallow
      by_cases hpub2 : (cfg.publicMode && !strTruthy cfg.apiKey) = true
      · rw [htr] at hpub2
        simp at hpub2
      · rw [requireApiAccess, if_neg hpub2, if_pos htr] at hallow
        by_cases hauth : req.authHeader.getD "" = "Bearer " ++ cfg.apiKey.getD ""
        · cases hh : req.authHeader with
          | none =>
            rw [hh] at hauth
            rw [hk] at hauth
            exact absurd hauth.symm hkeylen
          | some a =>
            rw [hh] at hauth
            rw [hk] at hauth
            simp at hauth
            rw [hauth]
        · rw [if_neg hauth] at hallow
          cases hallow
    · intro hauth
      have hpub2 : ¬ ((cfg.publicMode && !strTruthy cfg.apiKey) = true) := by
        simp [htr]
      rw [requireApiAccess, if_neg hpub2, if_pos htr, if_pos]
      rw [hauth, hk]
      rfl
  · simp [apiGate, hrate, hrej]

/-- C5 witness: with gating on and secret sek, the exact bearer credential
is allowed, a wrong one is rejected, and open mode allows a bare request. -/
theorem C5_access_control_witness :
    requireApiAccess ⟨false, some "sek"⟩ (some "Bearer sek") = AccessDecision.allow ∧
    ¬ requireApiAccess ⟨false, some "sek"⟩ (some "Bearer wrong") = AccessDecision.allow ∧
    requireApiAccess ⟨true, none⟩ none = AccessDecision.allow := by
  refine ⟨((C5_access_control ⟨false, some "sek"⟩ [] 0
      ⟨"/p", "i", some "Bearer sek"⟩).2.1 "sek" rfl (by decide)).mpr rfl, ?hwrong, ?hopen⟩
  · intro hcontra
    have h := ((C5_access_control ⟨false, some "sek"⟩ [] 0
      ⟨"/p", "i", some "Bearer wrong"⟩).2.1 "sek" rfl (by decide)).mp hcontra
    simp at h
  · exact (C5_access_control ⟨true, none⟩ [] 0 ⟨"/p", "i", none⟩).1 rfl rfl

/-- C6, counterexample: the normalized object for a concrete item-present
payload does not carry exactly the nine claimed fields; it carries a tenth
field is_paused as well. -/
theorem C6_fields_counterexample :
    (mapNowPlaying (some sampleData)).map Prod.fst ≠
      ["is_playing", "track", "artist", "album", "artwork_url", "url", "id",
       "progress_ms", "duration_ms"] ∧
    List.lookup "is_paused" (mapNowPlaying (some sampleData)) = some (.jBool false) := by
  decide

/-- C6 (amended): for every successful fetch with an upstream item present
the normalized object carries exactly the ten fields is_playing,
is_paused, track, artist, album, artwork_url, url, id, progress_ms,
duration_ms (and no others, in this order), where the two flags are
booleans, the six string fields are possibly-empty strings, and
progress_ms and duration_ms are integers that mirror the upstream values
(zero when missing), hence non-negative whenever the upstream values are
non-negative. -/
theorem C6_view_shape (d : PlayingData) (item : Item)
    (hitem : d.item = some item)
    (hp : ∀ p, d.progress_ms = some p → 0 ≤ p)
    (hd : ∀ n, item.duration_ms = some n → 0 ≤ n) :
    ∃ b1 b2 s1 s2 s3 s4 s5 s6 n1 n2,
      mapNowPlaying (some d) =
        [("is_playing", .jBool b1), ("is_paused", .jBool b2), ("track", .jStr s1),
         ("artist", .jStr s2), ("album", .jStr s3), ("artwork_url", .jStr s4),
         ("url", .jStr s5), ("id", .jStr s6), ("progress_ms", .jNum n1),
         ("duration_ms", .jNum n2)] ∧ 0 ≤ n1 ∧ 0 ≤ n2 := by
  refine ⟨jsEqTrue d.is_playing, jsEqFalse d.is_playing, item.name.getD "",
    joinNames (item.artists.getD []), (item.album.bind Album.name).getD "",
    (((item.album.bind Album.images).bind List.head?).bind Image.url).getD "",
    (item.external_urls.bind ExtUrls.spotify).getD "", item.id.getD "",
    d.progress_ms.getD 0, item.duration_ms.getD 0, ?hshape, ?hp2, ?hd2⟩
  · simp [mapNowPlaying, hitem]
  · cases hpp : d.progress_ms with
    | none => simp
    | some p => simpa using hp p hpp
  · cases hdd : item.duration_ms with
    | none => simp
    | some n => simpa using hd n hdd

/-- C6 witness: the amended shape at the concrete sample payload. -/
theorem C6_view_shape_witness :
    ∃ b1 b2 s1 s2 s3 s4 s5 s6 n1 n2,
      mapNowPlaying (some sampleData) =
        [("is_playing", .jBool b1), ("is_paused", .jBool b2), ("track", .jStr s1),
         ("artist", .jStr s2), ("album", .jStr s3), ("artwork_url", .jStr s4),
         ("url", .jStr s5), ("id", .jStr s6), ("progress_ms", .jNum n1),
         ("duration_ms", .jNum n2)] ∧ 0 ≤ n1 ∧ 0 ≤ n2 := by
  exact C6_view_shape sampleData sampleItem rfl
    (by intro p hp2; simp [sampleData] at hp2; omega)
    (by intro n hd2; simp [sampleItem] at hd2; omega)

/-- C7: when the playback read returns 204 no-content, or returns success
with a payload carrying no item (null payload included), the fetch
succeeds with the object whose is_playing is false, and the view read off
that object has every other field at its zero/empty default, whatever
other flags the payload carries. -/
theorem C7_no_content (cache : TokenCache) (now : Int) (tokResp : ExchangeResponse)
    (playResp : PlayingResponse) (tok : String)
    (htok : (getAccessToken cache now tokResp).result = .ok tok)
    (h : playResp.status = 204 ∨
      (respOk playResp.status = true ∧
        (playResp.pbody = none ∨ ∃ d, playResp.pbody = some d ∧ d.item = none))) :
    (fetchNowPlaying cache now tokResp playResp).result =
      .ok [("is_playing", .jBool false)] ∧
    viewOf [("is_playing", .jBool false)] = defaultView := by
  refine ⟨?hres, by decide⟩
  rcases h with h204 | ⟨hok, hbody⟩
  · simp [fetchNowPlaying, htok, h204]
  · by_cases h204 : playResp.status = 204
    · simp [fetchNowPlaying, htok, h204]
    · rcases hbody with hb | ⟨d, hb, hdi⟩
      · simp [fetchNowPlaying, htok, h204, hok, hb, mapNowPlaying]
      · simp [fetchNowPlaying, htok, h204, hok, hb, mapNowPlaying, hdi]

/-- C7 witness: a concrete 204 response with a valid cached token yields
the not-playing object, and so does a concrete 200 whose payload has
is_playing true but no item. -/
theorem C7_no_content_witness :
    (fetchNowPlaying ⟨some "tok", 100000⟩ 0 ⟨500, ⟨none, none⟩⟩ ⟨204, none⟩).result =
      .ok [("is_playing", .jBool false)] ∧
    (fetchNowPlaying ⟨some "tok", 100000⟩ 0 ⟨500, ⟨none, none⟩⟩
        ⟨200, some ⟨some true, some 5, none⟩⟩).result =
      .ok [("is_playing", .jBool false)] := by
  exact ⟨(C7_no_content ⟨some "tok", 100000⟩ 0 ⟨500, ⟨none, none⟩⟩ ⟨204, none⟩ "tok"
      (by decide) (Or.inl rfl)).1,
    (C7_no_content ⟨some "tok", 100000⟩ 0 ⟨500, ⟨none, none⟩⟩
      ⟨200, some ⟨some true, some 5, none⟩⟩ "tok" (by decide)
      (Or.inr ⟨by decide, Or.inr ⟨⟨some true, some 5, none⟩, rfl, rfl⟩⟩)).1⟩

/-- C8: with an item present, the normalized is_playing equals the
upstream playing flag, the artist field is the comma-joined artist names,
and each missing string field defaults to the empty string while each
missing numeric field defaults to zero. -/
theorem C8_normalization (d : PlayingData) (item : Item) (b : Bool) (as : List Artist)
    (hitem : d.item = some item) (hb : d.is_playing = some b) (has : item.artists = some as) :
    getBool (mapNowPlaying (some d)) "is_playing" = b ∧
    getStr (mapNowPlaying (some d)) "artist" =
      String.intercalate ", " (as.map fun a => a.name.getD "") ∧
    (item.name = none → getStr (mapNowPlaying (some d)) "track" = "") ∧
    (item.album = none → getStr (mapNowPlaying (some d)) "album" = "" ∧
      getStr (mapNowPlaying (some d)) "artwork_url" = "") ∧
    (item.external_urls = none → getStr (mapNowPlaying (some d)) "url" = "") ∧
    (item.id = none → getStr (mapNowPlaying (some d)) "id" = "") ∧
    (d.progress_ms = none → getNum (mapNowPlaying (some d)) "progress_ms" = 0) ∧
    (item.duration_ms = none → getNum (mapNowPlaying (some d)) "duration_ms" = 0) := by
  have hbval : jsEqTrue d.is_playing = b := by
    rw [hb]
    cases b <;> rfl
  have hlist : mapNowPlaying (some d) =
      [("is_playing", .jBool (jsEqTrue d.is_playing)),
       ("is_paused", .jBool (jsEqFalse d.is_playing)),
       ("track", .jStr (item.name.getD "")),
       ("artist", .jStr (joinNames (item.artists.getD []))),
       ("album", .jStr ((item.album.bind Album.name).getD "")),
       ("artwork_url",
        .jStr ((((item.album.bind Album.images).bind List.head?).bind Image.url).getD "")),
       ("url", .jStr ((item.external_urls.bind ExtUrls.spotify).getD "")),
       ("id", .jStr (item.id.getD "")),
       ("progress_ms", .jNum (d.progress_ms.getD 0)),
       ("duration_ms", .jNum (item.duration_ms.getD 0))] := by
    simp [mapNowPlaying, hitem]
  refine ⟨?f1, ?f2, fun h => ?f3, fun h => ⟨?f4, ?f5⟩, fun h => ?f6, fun h => ?f7,
    fun h => ?f8, fun h => ?f9⟩
  case f1 => simp [hlist, getBool, List.lookup, hbval]
  case f2 => simp [hlist, getStr, List.lookup, has, joinNames]
  case f3 => simp [hlist, getStr, List.lookup, h]
  case f4 => simp [hlist, getStr, List.lookup, h]
  case f5 => simp [hlist, getStr, List.lookup, h]
  case f6 => simp [hlist, getStr, List.lookup, h]
  case f7 => simp [hlist, getStr, List.lookup, h]
  case f8 => simp [hlist, getNum, List.lookup, h]
  case f9 => simp [hlist, getNum, List.lookup, h]

/-- C8 witness: on the sample payload is_playing is true and the artist
field is the comma-joined pair of artist names. -/
theorem C8_normalization_witness :
    getBool (mapNowPlaying (some sampleData)) "is_playing" = true ∧
    getStr (mapNowPlaying (some sampleData)) "artist" = "Artist A, Artist B" := by
  have h := C8_normalization sampleData sampleItem true
    [⟨some "Artist A"⟩, ⟨some "Artist B"⟩] rfl rfl rfl
  exact ⟨h.1, h.2.1.trans (by decide)⟩

/-- C9: a non-success, non-204 status on the playback read makes the fetch
fail with the status-carrying fetch error; a token-manager failure is
propagated unchanged; and the now-playing route answers any fetch failure
with HTTP 502 and a non-cacheable JSON error body. -/
theorem C9_fetch_errors (cfg : Config) (store : Store) (cache : TokenCache) (now : Int)
    (req : Request) (tokResp : ExchangeResponse) (playResp : PlayingResponse) :
    (∀ tok, (getAccessToken cache now tokResp).result = .ok tok →
      playResp.status ≠ 204 → respOk playResp.status = false →
      (fetchNowPlaying cache now tokResp playResp).result =
        .error (.upstreamFetchError playResp.status)) ∧
    (∀ e, (getAccessToken cache now tokResp).result = .error e →
      (fetchNowPlaying cache now tokResp playResp).result = .error (.tokenError e)) ∧
    (∀ e store2, apiGate cfg store now req = .proceed store2 →
      (fetchNowPlaying cache now tokResp playResp).result = .error e →
      (handleNowPlaying cfg store cache now req tokResp playResp).1 =
        ⟨502, .json [("error", .jStr (errorMessage e))], true⟩) := by
  refine ⟨fun tok htok h204 hbad => ?hfetch, fun e herr => ?hprop,
    fun e store2 hgate herr => ?hroute⟩
  · simp [fetchNowPlaying, htok, h204, hbad]
  · simp [fetchNowPlaying, herr]
  · simp [handleNowPlaying, hgate, herr]

/-- C9 witness: with a valid cached token and a concrete 500 on the
playback read, the public-mode route answers 502 with the fetch error
message. -/
theorem C9_fetch_errors_witness :
    (fetchNowPlaying ⟨some "tok", 100000⟩ 0 ⟨500, ⟨none, none⟩⟩ ⟨500, none⟩).result =
      .error (.upstreamFetchError 500) ∧
    (handleNowPlaying ⟨true, none⟩ [] ⟨some "tok", 100000⟩ 0 ⟨"/now-playing", "7.7.7.7", none⟩
        ⟨500, ⟨none, none⟩⟩ ⟨500, none⟩).1 =
      ⟨502, .json [("error",
        .jStr "Spotify currently-playing fetch failed (500)")], true⟩ := by
  have h := C9_fetch_errors ⟨true, none⟩ [] ⟨some "tok", 100000⟩ 0
    ⟨"/now-playing", "7.7.7.7", none⟩ ⟨500, ⟨none, none⟩⟩ ⟨500, none⟩
  have h1 := h.1 "tok" (by decide) (by decide) (by decide)
  refine ⟨h1, ?hw⟩
  have h2 := h.2.2 (.upstreamFetchError 500)
    (rateLimit [] 0 "7.7.7.7" "/now-playing").2 (by decide) h1
  exact h2.trans (by decide)

end Spot
